import Mathlib

/-
Shallow embedding of src/bot.js (Telegram subscription bot backed by a
Google Sheet, Stripe payments and a VdoCipher DRM endpoint).

Modelling conventions:
- The Google Sheet is a list of rows; a failing sheet call (getRows,
  row.save, addRow) is modelled by a Bool flag or an Except parameter,
  since every sheet call in the source is awaited inside a try/catch.
- The ISO-8601 string stored in the subscription_end_date column by
  Date.toISOString is represented by the epoch-millisecond timestamp it
  encodes, with none standing for the empty string; toISOString is
  injective on timestamps, so this preserves equality and order.
- External calls (stripe.subscriptions.retrieve, stripe.customers.retrieve,
  bot.sendMessage, bot.banChatMember/unbanChatMember,
  bot.exportChatInviteLink, the VdoCipher OTP request) are modelled by
  outcome parameters in an Env record: the value the call would return, or
  its failure. Messages sent by the bot are recorded as effects tagged by
  the message kind and the data interpolated into the text.
-/

namespace Bot

/-- A row of the Google Sheet backing store, with the columns written by
createUser in src/bot.js. -/
structure SheetRow where
  telegram_id : String
  telegram_username : String
  first_name : String
  stripe_customer_id : String
  subscription_status : String
  subscription_end_date : Option Nat
  created_at : String
  email : String
  deriving DecidableEq, Repr

/-- The object returned by getUser in src/bot.js (the row fields minus the
email column). -/
structure User where
  telegram_id : String
  telegram_username : String
  first_name : String
  stripe_customer_id : String
  subscription_status : String
  subscription_end_date : Option Nat
  created_at : String
  deriving DecidableEq, Repr

/-- Projection of a sheet row to the object getUser returns. -/
def rowToUser (r : SheetRow) : User :=
  { telegram_id := r.telegram_id
    telegram_username := r.telegram_username
    first_name := r.first_name
    stripe_customer_id := r.stripe_customer_id
    subscription_status := r.subscription_status
    subscription_end_date := r.subscription_end_date
    created_at := r.created_at }

/-- getUser (src/bot.js lines 39-59): reads all rows, finds the first row
whose telegram_id column equals the requested id, and returns its fields;
any error from the sheet read is caught and null is returned. The outcome
of sheet.getRows is passed in as readResult. -/
def getUser (readResult : Except Unit (List SheetRow)) (telegramId : String) :
    Option User :=
  match readResult with
  | Except.error _ => none
  | Except.ok rows => (rows.find? (fun r => r.telegram_id == telegramId)).map rowToUser

/-- createUser (src/bot.js lines 61-89): first creates a Stripe customer,
then appends a row to the sheet, then re-reads the user. Any error is
caught and null returned. createCustomerResult is the outcome of
stripe.customers.create (ok carries the new customer id); addRowOk is
whether sheet.addRow succeeds; readOk is whether the final getUser read
succeeds. Returns the resulting sheet contents and the returned value. -/
def createUser (createCustomerResult : Except Unit String) (addRowOk : Bool)
    (readOk : Bool) (rows : List SheetRow) (telegramId : String)
    (username : Option String) (firstName : Option String) (now : String) :
    List SheetRow × Option User :=
  match createCustomerResult with
  | Except.error _ => (rows, none)
  | Except.ok customerId =>
    if addRowOk then
      let newRow : SheetRow :=
        { telegram_id := telegramId
          telegram_username := username.getD "no_username"
          first_name := firstName.getD "User"
          stripe_customer_id := customerId
          subscription_status := "inactive"
          subscription_end_date := none
          created_at := now
          email := "" }
      let rows1 := rows ++ [newRow]
      (rows1, getUser (if readOk then Except.ok rows1 else Except.error ()) telegramId)
    else (rows, none)

/-- The field updates performed by updateUserSubscription on the found row:
subscription_status := status and subscription_end_date := the ISO string of
endDate (empty when null). -/
def setSub (status : String) (endDate : Option Nat) (r : SheetRow) : SheetRow :=
  { r with subscription_status := status, subscription_end_date := endDate }

/-- Rewrites the first row whose telegram_id matches (rows.find returns the
first match, and only that row is set and saved). -/
def updateRows (rows : List SheetRow) (telegramId status : String)
    (endDate : Option Nat) : List SheetRow :=
  match rows with
  | [] => []
  | r :: rs =>
    if r.telegram_id == telegramId then setSub status endDate r :: rs
    else r :: updateRows rs telegramId status endDate

/-- updateUserSubscription (src/bot.js lines 91-106): finds the row for the
id, sets status and end date on it and saves; returns true on success,
false when the row is absent or any sheet call throws (caught). storeOk
models whether the sheet calls (getRows, row.save) succeed. -/
def updateUserSubscription (storeOk : Bool) (rows : List SheetRow)
    (telegramId status : String) (endDate : Option Nat) :
    List SheetRow × Bool :=
  if storeOk then
    match rows.find? (fun r => r.telegram_id == telegramId) with
    | some _ => (updateRows rows telegramId status endDate, true)
    | none => (rows, false)
  else (rows, false)

/-- Outcomes of the external calls made while handling webhook events. -/
structure Env where
  storeOk : Bool
  retrieveSubscription : String → Except Unit Nat
  retrieveCustomer : String → Except Unit String
  exportInviteOk : Bool
  inviteLink : String
  banOk : Bool
  sendMessageOk : Bool

/-- The kinds of message the webhook handler sends, tagged with the data
interpolated into the text. -/
inductive MsgKind where
  | paymentSuccess (endDate : Nat) (groupLink : String)
  | cancelledNote
  | paymentFailedWarning (customerId : String)
  deriving DecidableEq, Repr

/-- Observable side effects of webhook handling. -/
inductive Effect where
  | sentMessage (telegramId : String) (kind : MsgKind)
  | removedFromGroup (telegramId : String)
  deriving DecidableEq, Repr

/-- The verified Stripe events the switch in the webhook handler
distinguishes, carrying the fields each case reads. -/
inductive StripeEvent where
  | checkoutSessionCompleted (telegramId subscriptionId : String)
  | customerSubscriptionDeleted (customerId : String)
  | invoicePaymentFailed (customerId : String)
  | otherEvent (eventType : String)
  deriving DecidableEq, Repr

/-- Outcome of stripe.webhooks.constructEvent: a verified event, or a
signature failure with the error message. -/
inductive SigCheck where
  | ok (event : StripeEvent)
  | fail (msg : String)
  deriving DecidableEq, Repr

/-- The response body the webhook endpoint sends. -/
inductive ResponseBody where
  | receivedTrue
  | webhookError (msg : String)
  deriving DecidableEq, Repr

/-- What one webhook request produces: the HTTP status and body of the
response, the resulting sheet contents, and the side effects fired. -/
structure WebhookResult where
  httpStatus : Nat
  body : ResponseBody
  rows : List SheetRow
  effects : List Effect
  deriving DecidableEq, Repr

/-- getPrivateGroupLink (src/bot.js lines 237-245): returns the exported
invite link, or a support fallback string when the export call throws. -/
def getPrivateGroupLink (env : Env) : String :=
  if env.exportInviteOk then env.inviteLink else "Contact support for group access"

/-- The checkout.session.completed case (src/bot.js lines 267-294):
retrieve the subscription from Stripe, compute endDate as
current_period_end * 1000 milliseconds, call updateUserSubscription with
status active (its Boolean result is only logged), get the group link, and
send the success message. Every failure inside the case is caught; a
failure of the subscription retrieval skips everything after it, and a
failure of sendMessage loses only the message. -/
def handleCheckoutCompleted (env : Env) (rows : List SheetRow)
    (telegramId subscriptionId : String) : List SheetRow × List Effect :=
  match env.retrieveSubscription subscriptionId with
  | Except.error _ => (rows, [])
  | Except.ok currentPeriodEnd =>
    let endDate := currentPeriodEnd * 1000
    let upd := updateUserSubscription env.storeOk rows telegramId "active" (some endDate)
    let groupLink := getPrivateGroupLink env
    (upd.1,
      if env.sendMessageOk then
        [Effect.sentMessage telegramId (MsgKind.paymentSuccess endDate groupLink)]
      else [])

/-- The customer.subscription.deleted case (src/bot.js lines 296-319):
retrieve the customer to get its telegram id, unconditionally call
updateUserSubscription with status cancelled and a null end date, then
ban+unban the user from the group inside its own try/catch, then send the
cancellation message. A ban failure is caught and does not stop the
message; a customer retrieval failure skips the whole case. -/
def handleSubscriptionDeleted (env : Env) (rows : List SheetRow)
    (customerId : String) : List SheetRow × List Effect :=
  match env.retrieveCustomer customerId with
  | Except.error _ => (rows, [])
  | Except.ok userTelegramId =>
    let upd := updateUserSubscription env.storeOk rows userTelegramId "cancelled" none
    let groupEffects :=
      if env.banOk then [Effect.removedFromGroup userTelegramId] else []
    (upd.1,
      groupEffects ++
        if env.sendMessageOk then
          [Effect.sentMessage userTelegramId MsgKind.cancelledNote]
        else [])

/-- The invoice.payment_failed case (src/bot.js lines 321-337): retrieve
the customer, send a warning message linking the portal for that customer;
no sheet mutation. -/
def handleInvoicePaymentFailed (env : Env) (rows : List SheetRow)
    (customerId : String) : List SheetRow × List Effect :=
  match env.retrieveCustomer customerId with
  | Except.error _ => (rows, [])
  | Except.ok failedTelegramId =>
    (rows,
      if env.sendMessageOk then
        [Effect.sentMessage failedTelegramId (MsgKind.paymentFailedWarning customerId)]
      else [])

/-- The POST /stripe-webhook handler (src/bot.js lines 248-341): on a
signature failure respond 400 with the error text and do nothing else; on
a verified event dispatch on the event type (unknown types fall through
the switch) and always respond 200 with received true. -/
def stripeWebhook (env : Env) (rows : List SheetRow) (sig : SigCheck) :
    WebhookResult :=
  match sig with
  | SigCheck.fail msg =>
    { httpStatus := 400, body := ResponseBody.webhookError msg
      rows := rows, effects := [] }
  | SigCheck.ok event =>
    let step :=
      match event with
      | StripeEvent.checkoutSessionCompleted tid sub =>
        handleCheckoutCompleted env rows tid sub
      | StripeEvent.customerSubscriptionDeleted cid =>
        handleSubscriptionDeleted env rows cid
      | StripeEvent.invoicePaymentFailed cid =>
        handleInvoicePaymentFailed env rows cid
      | StripeEvent.otherEvent _ => (rows, [])
    { httpStatus := 200, body := ResponseBody.receivedTrue
      rows := step.1, effects := step.2 }

/-- The JSON body of the video endpoint response; the handler always
responds via res.json, so there is no bare HTTP error shape. -/
inductive VideoResponse where
  | media (otp playbackInfo : String)
  | errorMsg (msg : String)
  deriving DecidableEq, Repr

/-- The POST /api/verify-and-get-video/:videoId handler (src/bot.js lines
524-554): look the user up; when absent or not active, answer the
no-subscription error body; otherwise request a VdoCipher OTP and answer
otp and playbackInfo, or the loading-error body when that request (or
anything else in the try) throws. readResult is the sheet read outcome
inside getUser; otpResult is the outcome of the VdoCipher call, ok
carrying the pair of otp and playbackInfo. -/
def verifyAndGetVideo (readResult : Except Unit (List SheetRow))
    (userId : String) (otpResult : Except Unit (String × String)) :
    VideoResponse :=
  match getUser readResult userId with
  | none =>
    VideoResponse.errorMsg "No active subscription. Please subscribe to access videos."
  | some user =>
    if user.subscription_status == "active" then
      match otpResult with
      | Except.ok op => VideoResponse.media op.1 op.2
      | Except.error _ =>
        VideoResponse.errorMsg "Error loading video. Please try again."
    else
      VideoResponse.errorMsg "No active subscription. Please subscribe to access videos."

/-- The reply shapes of the /status command handler (src/bot.js lines
159-183), tagged with the data interpolated into the text. -/
inductive StatusReply where
  | noAccount
  | activeInfo (endDate : Option Nat) (customerId : String)
  | noActive
  deriving DecidableEq, Repr

/-- The /status command handler: no user found means the no-account reply;
an active user gets the expiry and portal link; anyone else the
no-active-subscription reply. -/
def statusCommand (readResult : Except Unit (List SheetRow)) (userId : String) :
    StatusReply :=
  match getUser readResult userId with
  | none => StatusReply.noAccount
  | some user =>
    if user.subscription_status == "active" then
      StatusReply.activeInfo user.subscription_end_date user.stripe_customer_id
    else StatusReply.noActive

/-- Status column of the first row matching the id, as getUser would see it. -/
def statusOf (rows : List SheetRow) (telegramId : String) : Option String :=
  (rows.find? (fun r => r.telegram_id == telegramId)).map
    (fun r => r.subscription_status)

/-- End-date column of the first row matching the id. -/
def endOf (rows : List SheetRow) (telegramId : String) : Option (Option Nat) :=
  (rows.find? (fun r => r.telegram_id == telegramId)).map
    (fun r => r.subscription_end_date)

/-- setSub does not touch the telegram_id column. -/
theorem setSub_telegram_id (status : String) (endDate : Option Nat) (r : SheetRow) :
    (setSub status endDate r).telegram_id = r.telegram_id := rfl

/-- Applying the same field update twice equals applying it once. -/
theorem setSub_idem (status : String) (endDate : Option Nat) (r : SheetRow) :
    setSub status endDate (setSub status endDate r) = setSub status endDate r := rfl

/-- Finding the key after updateRows returns the updated version of what
finding it before returned. -/
theorem find?_updateRows (rows : List SheetRow) (tid status : String)
    (endDate : Option Nat) :
    (updateRows rows tid status endDate).find? (fun r => r.telegram_id == tid)
      = (rows.find? (fun r => r.telegram_id == tid)).map (setSub status endDate) := by
  induction rows with
  | nil => rfl
  | cons r rs ih =>
    cases h : r.telegram_id == tid with
    | true =>
      simp only [updateRows, h, if_true]
      rw [List.find?_cons_of_pos _ (by simp [setSub_telegram_id, h])]
      have hr : (r :: rs).find? (fun x => x.telegram_id == tid) = some r :=
        List.find?_cons_of_pos _ h
      rw [hr]
      rfl
    | false =>
      simp only [updateRows, h, Bool.false_eq_true, if_false]
      rw [List.find?_cons_of_neg _ (by simp [h]),
        List.find?_cons_of_neg _ (by simp [h]), ih]

/-- updateRows is idempotent. -/
theorem updateRows_idem (rows : List SheetRow) (tid status : String)
    (endDate : Option Nat) :
    updateRows (updateRows rows tid status endDate) tid status endDate
      = updateRows rows tid status endDate := by
  induction rows with
  | nil => rfl
  | cons r rs ih =>
    cases h : r.telegram_id == tid with
    | true =>
      simp only [updateRows, h, if_true]
      rw [if_pos (by rw [setSub_telegram_id, h]), setSub_idem]
    | false =>
      simp only [updateRows, h, Bool.false_eq_true, if_false, ih]

/-- The sheet contents produced by updateUserSubscription are a fixed point
of the same update. -/
theorem updateUserSubscription_fst_idem (storeOk : Bool) (rows : List SheetRow)
    (tid status : String) (endDate : Option Nat) :
    (updateUserSubscription storeOk
        (updateUserSubscription storeOk rows tid status endDate).1 tid status endDate).1
      = (updateUserSubscription storeOk rows tid status endDate).1 := by
  cases storeOk with
  | false => simp [updateUserSubscription]
  | true =>
    simp only [updateUserSubscription, if_true]
    cases h : rows.find? (fun r => r.telegram_id == tid) with
    | none => simp [h]
    | some r0 => simp [h, find?_updateRows, updateRows_idem]

/-- After updateRows, the status column of the first matching row is the
written status, provided a matching row exists. -/
theorem statusOf_updateRows (rows : List SheetRow) (tid status : String)
    (endDate : Option Nat) (r0 : SheetRow)
    (h : rows.find? (fun r => r.telegram_id == tid) = some r0) :
    statusOf (updateRows rows tid status endDate) tid = some status := by
  unfold statusOf
  rw [find?_updateRows, h]
  rfl

/-- After updateRows, the end-date column of the first matching row is the
written end date, provided a matching row exists. -/
theorem endOf_updateRows (rows : List SheetRow) (tid status : String)
    (endDate : Option Nat) (r0 : SheetRow)
    (h : rows.find? (fun r => r.telegram_id == tid) = some r0) :
    endOf (updateRows rows tid status endDate) tid = some endDate := by
  unfold endOf
  rw [find?_updateRows, h]
  rfl

/-- A statusOf fact exhibits the row it was read from. -/
theorem find?_of_statusOf (rows : List SheetRow) (tid s : String)
    (h : statusOf rows tid = some s) :
    ∃ r0, rows.find? (fun r => r.telegram_id == tid) = some r0
      ∧ r0.subscription_status = s := by
  unfold statusOf at h
  cases hf : rows.find? (fun r => r.telegram_id == tid) with
  | none => rw [hf] at h; cases h
  | some r0 =>
    rw [hf] at h
    exact ⟨r0, rfl, by injection h⟩

/-- Sheet fixture: one subscriber, telegram id 1, Stripe customer cus_1,
currently inactive with no end date. -/
def inactiveRow : SheetRow :=
  { telegram_id := "1", telegram_username := "u", first_name := "F"
    stripe_customer_id := "cus_1", subscription_status := "inactive"
    subscription_end_date := none, created_at := "t0", email := "" }

/-- Environment fixture: every external call succeeds; the gateway resolves
customer cus_1 to telegram id 1, and reports period end 200 for
subscription sub_new and 100 for the older subscription sub_old. -/
def happyEnv : Env :=
  { storeOk := true
    retrieveSubscription := fun s =>
      if s == "sub_new" then Except.ok 200
      else if s == "sub_old" then Except.ok 100
      else Except.error ()
    retrieveCustomer := fun c =>
      if c == "cus_1" then Except.ok "1" else Except.error ()
    exportInviteOk := true, inviteLink := "L"
    banOk := true, sendMessageOk := true }

/-- Environment fixture in which every sheet write fails. -/
def downStoreEnv : Env := { happyEnv with storeOk := false }

/-- Environment fixture in which the group ban call fails. -/
def noBanEnv : Env := { happyEnv with banOk := false }

/-- Sheet fixture: the subscriber of inactiveRow, already active with end
date 300000. -/
def activeRow : SheetRow :=
  { inactiveRow with subscription_status := "active"
                     subscription_end_date := some 300000 }

/-- C1 counterexample: the customer.subscription.deleted case never reads
the current status, so on a subscriber whose status is inactive it is not
a no-op: the status becomes cancelled, the user is removed from the group
and the cancellation message is sent. -/
theorem deleted_event_on_inactive_not_noop :
    statusOf (stripeWebhook happyEnv [inactiveRow]
        (SigCheck.ok (StripeEvent.customerSubscriptionDeleted "cus_1"))).rows "1"
      = some "cancelled" ∧
    statusOf (stripeWebhook happyEnv [inactiveRow]
        (SigCheck.ok (StripeEvent.customerSubscriptionDeleted "cus_1"))).rows "1"
      ≠ some "inactive" ∧
    (stripeWebhook happyEnv [inactiveRow]
        (SigCheck.ok (StripeEvent.customerSubscriptionDeleted "cus_1"))).effects
      = [Effect.removedFromGroup "1",
        Effect.sentMessage "1" MsgKind.cancelledNote] := by
  decide

/-- C1 (amended): a customer.subscription.deleted event for a subscriber
currently inactive is handled exactly like one for an active subscriber:
the record is set to cancelled with the end date cleared and the
cancellation notification fires (the handler never inspects the current
status). -/
theorem deleted_event_cancels_inactive_subscriber (env : Env)
    (rows : List SheetRow) (cid tid : String)
    (hc : env.retrieveCustomer cid = Except.ok tid)
    (hs : env.storeOk = true)
    (hm : env.sendMessageOk = true)
    (hrow : statusOf rows tid = some "inactive") :
    statusOf (stripeWebhook env rows
        (SigCheck.ok (StripeEvent.customerSubscriptionDeleted cid))).rows tid
      = some "cancelled" ∧
    endOf (stripeWebhook env rows
        (SigCheck.ok (StripeEvent.customerSubscriptionDeleted cid))).rows tid
      = some none ∧
    Effect.sentMessage tid MsgKind.cancelledNote
      ∈ (stripeWebhook env rows
          (SigCheck.ok (StripeEvent.customerSubscriptionDeleted cid))).effects := by
  obtain ⟨r0, hf, _⟩ := find?_of_statusOf rows tid "inactive" hrow
  simp only [stripeWebhook, handleSubscriptionDeleted, hc, hs, hm,
    updateUserSubscription, hf, if_true]
  exact ⟨statusOf_updateRows rows tid "cancelled" none r0 hf,
    endOf_updateRows rows tid "cancelled" none r0 hf,
    List.mem_append_right _ (List.Mem.head _)⟩

/-- C1 witness: the amended statement at the concrete inactive fixture. -/
theorem deleted_event_cancels_inactive_subscriber_witness :
    statusOf (stripeWebhook happyEnv [inactiveRow]
        (SigCheck.ok (StripeEvent.customerSubscriptionDeleted "cus_1"))).rows "1"
      = some "cancelled" ∧
    endOf (stripeWebhook happyEnv [inactiveRow]
        (SigCheck.ok (StripeEvent.customerSubscriptionDeleted "cus_1"))).rows "1"
      = some none ∧
    Effect.sentMessage "1" MsgKind.cancelledNote
      ∈ (stripeWebhook happyEnv [inactiveRow]
          (SigCheck.ok (StripeEvent.customerSubscriptionDeleted "cus_1"))).effects :=
  deleted_event_cancels_inactive_subscriber happyEnv [inactiveRow] "cus_1" "1"
    rfl rfl rfl rfl

/-- C2 counterexample: with the sheet store failing, the
checkout.session.completed case leaves the record unchanged and
updateUserSubscription reports failure, yet the success notification is
still sent and the endpoint still answers 200 received true, so the
gateway is not told to retry. -/
theorem checkout_ack_and_notify_after_failed_save :
    (stripeWebhook downStoreEnv [inactiveRow]
        (SigCheck.ok (StripeEvent.checkoutSessionCompleted "1" "sub_new"))).rows
      = [inactiveRow] ∧
    (updateUserSubscription downStoreEnv.storeOk [inactiveRow] "1" "active"
        (some 200000)).2 = false ∧
    Effect.sentMessage "1" (MsgKind.paymentSuccess 200000 "L")
      ∈ (stripeWebhook downStoreEnv [inactiveRow]
          (SigCheck.ok (StripeEvent.checkoutSessionCompleted "1" "sub_new"))).effects ∧
    (stripeWebhook downStoreEnv [inactiveRow]
        (SigCheck.ok (StripeEvent.checkoutSessionCompleted "1" "sub_new"))).httpStatus
      = 200 ∧
    (stripeWebhook downStoreEnv [inactiveRow]
        (SigCheck.ok (StripeEvent.checkoutSessionCompleted "1" "sub_new"))).body
      = ResponseBody.receivedTrue := by
  decide

/-- C2 (amended): the checkout.session.completed case only logs the
Boolean result of updateUserSubscription; when the record mutation fails
the notification is still sent and the endpoint still answers 200 with
received true, so the failure is never reported to the gateway. -/
theorem notify_fires_despite_failed_mutation (env : Env) (rows : List SheetRow)
    (tid sub : String) (p : Nat)
    (hs : env.storeOk = false)
    (hr : env.retrieveSubscription sub = Except.ok p)
    (hm : env.sendMessageOk = true) :
    (stripeWebhook env rows
        (SigCheck.ok (StripeEvent.checkoutSessionCompleted tid sub))).rows = rows ∧
    Effect.sentMessage tid (MsgKind.paymentSuccess (p * 1000) (getPrivateGroupLink env))
      ∈ (stripeWebhook env rows
          (SigCheck.ok (StripeEvent.checkoutSessionCompleted tid sub))).effects ∧
    (stripeWebhook env rows
        (SigCheck.ok (StripeEvent.checkoutSessionCompleted tid sub))).httpStatus = 200 ∧
    (stripeWebhook env rows
        (SigCheck.ok (StripeEvent.checkoutSessionCompleted tid sub))).body
      = ResponseBody.receivedTrue := by
  simp [stripeWebhook, handleCheckoutCompleted, hr, hs, hm, updateUserSubscription]

/-- C2 witness: the amended statement at the failing-store fixture. -/
theorem notify_fires_despite_failed_mutation_witness :
    (stripeWebhook downStoreEnv [inactiveRow]
        (SigCheck.ok (StripeEvent.checkoutSessionCompleted "1" "sub_new"))).rows
      = [inactiveRow] ∧
    Effect.sentMessage "1"
        (MsgKind.paymentSuccess (200 * 1000) (getPrivateGroupLink downStoreEnv))
      ∈ (stripeWebhook downStoreEnv [inactiveRow]
          (SigCheck.ok (StripeEvent.checkoutSessionCompleted "1" "sub_new"))).effects ∧
    (stripeWebhook downStoreEnv [inactiveRow]
        (SigCheck.ok (StripeEvent.checkoutSessionCompleted "1" "sub_new"))).httpStatus
      = 200 ∧
    (stripeWebhook downStoreEnv [inactiveRow]
        (SigCheck.ok (StripeEvent.checkoutSessionCompleted "1" "sub_new"))).body
      = ResponseBody.receivedTrue :=
  notify_fires_despite_failed_mutation downStoreEnv [inactiveRow] "1" "sub_new" 200
    rfl rfl rfl

/-- Sheet contents after the newer renewal event, which stores period end
200 * 1000 milliseconds. -/
def rowsAfterNew : List SheetRow :=
  (stripeWebhook happyEnv [inactiveRow]
    (SigCheck.ok (StripeEvent.checkoutSessionCompleted "1" "sub_new"))).rows

/-- Sheet contents after then replaying the older event, whose gateway
read-back reports the earlier period end 100. -/
def rowsAfterReplay : List SheetRow :=
  (stripeWebhook happyEnv rowsAfterNew
    (SigCheck.ok (StripeEvent.checkoutSessionCompleted "1" "sub_old"))).rows

/-- C3 counterexample: the newer event leaves the period end at 200000, and
replaying the older event afterwards overwrites it with 100000, a
regression below the value set by the newer event. -/
theorem replay_regresses_period_end :
    endOf rowsAfterNew "1" = some (some 200000) ∧
    endOf rowsAfterReplay "1" = some (some 100000) ∧
    (100000 : Nat) < 200000 := by
  decide

/-- The updated subscriber row as it stands after the newer event. -/
def activeRowNew : SheetRow :=
  { inactiveRow with subscription_status := "active"
                     subscription_end_date := some 200000 }

/-- C3 (amended): the handler applies last-write-wins with no monotonicity
check: every processed checkout.session.completed event overwrites
periodEndTimestamp with 1000 times the period end read back from the
gateway for that specific subscription id at processing time, whatever
value was stored before; so a replayed older event whose gateway read-back
is smaller regresses the stored period end. -/
theorem checkout_sets_period_end_last_write_wins (env : Env)
    (rows : List SheetRow) (tid sub : String) (p : Nat) (r0 : SheetRow)
    (hs : env.storeOk = true)
    (hr : env.retrieveSubscription sub = Except.ok p)
    (hf : rows.find? (fun r => r.telegram_id == tid) = some r0) :
    endOf (stripeWebhook env rows
        (SigCheck.ok (StripeEvent.checkoutSessionCompleted tid sub))).rows tid
      = some (some (p * 1000)) := by
  simp only [stripeWebhook, handleCheckoutCompleted, hr, hs,
    updateUserSubscription, hf, if_true]
  exact endOf_updateRows rows tid "active" (some (p * 1000)) r0 hf

/-- C3 witness: the amended statement at the replayed-older-event input,
where the overwrite regresses 200000 to 100000. -/
theorem checkout_sets_period_end_last_write_wins_witness :
    endOf (stripeWebhook happyEnv rowsAfterNew
        (SigCheck.ok (StripeEvent.checkoutSessionCompleted "1" "sub_old"))).rows "1"
      = some (some (100 * 1000)) :=
  checkout_sets_period_end_last_write_wins happyEnv rowsAfterNew "1" "sub_old" 100
    activeRowNew rfl rfl (by decide)

/-- C4: applying the same checkout.session.completed event twice, against
the same gateway state (same subscription id, hence the same read-back
current_period_end), leaves the sheet exactly as applying it once: the
handler stores the absolute period end retrieved from the gateway, never a
locally computed extension, so the second application rewrites the same
values. -/
theorem checkout_event_idempotent (env : Env) (rows : List SheetRow)
    (tid sub : String) :
    (stripeWebhook env
        (stripeWebhook env rows
          (SigCheck.ok (StripeEvent.checkoutSessionCompleted tid sub))).rows
        (SigCheck.ok (StripeEvent.checkoutSessionCompleted tid sub))).rows
      = (stripeWebhook env rows
          (SigCheck.ok (StripeEvent.checkoutSessionCompleted tid sub))).rows := by
  simp only [stripeWebhook, handleCheckoutCompleted]
  cases h : env.retrieveSubscription sub with
  | error e => simp [h]
  | ok p => simp [h, updateUserSubscription_fst_idem]

/-- C5: a webhook request whose signature verification fails is answered
with HTTP 400 and the error body, the sheet is untouched and no side
effect fires. -/
theorem invalid_signature_rejected (env : Env) (rows : List SheetRow)
    (msg : String) :
    (stripeWebhook env rows (SigCheck.fail msg)).httpStatus = 400 ∧
    (stripeWebhook env rows (SigCheck.fail msg)).body
        = ResponseBody.webhookError msg ∧
    (stripeWebhook env rows (SigCheck.fail msg)).rows = rows ∧
    (stripeWebhook env rows (SigCheck.fail msg)).effects = [] :=
  ⟨rfl, rfl, rfl, rfl⟩

/-- C7: when the Stripe customer creation fails, createUser returns null
and leaves the sheet exactly as it was: the addRow call comes after the
customer creation inside the same try, so no record is left behind. -/
theorem createUser_atomic_on_gateway_failure (addRowOk readOk : Bool)
    (rows : List SheetRow) (telegramId : String)
    (username firstName : Option String) (now : String) :
    createUser (Except.error ()) addRowOk readOk rows telegramId
        username firstName now = (rows, none) :=
  rfl

/-- C9: every webhook request that passes signature verification is
answered with HTTP 200 and received true, whatever the event type and
whatever the outcomes of the sheet and external calls: each event case
catches its own errors and unknown types fall through the switch. -/
theorem verified_webhook_always_ack (env : Env) (rows : List SheetRow)
    (event : StripeEvent) :
    (stripeWebhook env rows (SigCheck.ok event)).httpStatus = 200 ∧
    (stripeWebhook env rows (SigCheck.ok event)).body = ResponseBody.receivedTrue :=
  ⟨rfl, rfl⟩

/-- C6: on an active subscriber, a customer.subscription.deleted event
sets the record to cancelled with the end date cleared; the cancellation
message fires whether or not the group ban succeeds (the ban runs inside
its own try/catch and its failure neither blocks the message nor rolls
back the mutation), and when the ban succeeds the group removal is also
performed. -/
theorem deleted_event_on_active_subscriber (env : Env) (rows : List SheetRow)
    (cid tid : String)
    (hc : env.retrieveCustomer cid = Except.ok tid)
    (hs : env.storeOk = true)
    (hm : env.sendMessageOk = true)
    (hrow : statusOf rows tid = some "active") :
    statusOf (stripeWebhook env rows
        (SigCheck.ok (StripeEvent.customerSubscriptionDeleted cid))).rows tid
      = some "cancelled" ∧
    endOf (stripeWebhook env rows
        (SigCheck.ok (StripeEvent.customerSubscriptionDeleted cid))).rows tid
      = some none ∧
    Effect.sentMessage tid MsgKind.cancelledNote
      ∈ (stripeWebhook env rows
          (SigCheck.ok (StripeEvent.customerSubscriptionDeleted cid))).effects ∧
    (env.banOk = true →
      Effect.removedFromGroup tid
        ∈ (stripeWebhook env rows
            (SigCheck.ok (StripeEvent.customerSubscriptionDeleted cid))).effects) := by
  obtain ⟨r0, hf, _⟩ := find?_of_statusOf rows tid "active" hrow
  simp only [stripeWebhook, handleSubscriptionDeleted, hc, hs, hm,
    updateUserSubscription, hf, if_true]
  refine ⟨statusOf_updateRows rows tid "cancelled" none r0 hf,
    endOf_updateRows rows tid "cancelled" none r0 hf,
    List.mem_append_right _ (List.Mem.head _),
    fun hb => ?_⟩
  rw [hb]
  exact List.mem_append_left _ (List.Mem.head _)

/-- C6 witness: the statement at a concrete active subscriber with the
group ban failing; the cancellation message still fires. -/
theorem deleted_event_on_active_subscriber_witness :
    statusOf (stripeWebhook noBanEnv [activeRow]
        (SigCheck.ok (StripeEvent.customerSubscriptionDeleted "cus_1"))).rows "1"
      = some "cancelled" ∧
    endOf (stripeWebhook noBanEnv [activeRow]
        (SigCheck.ok (StripeEvent.customerSubscriptionDeleted "cus_1"))).rows "1"
      = some none ∧
    Effect.sentMessage "1" MsgKind.cancelledNote
      ∈ (stripeWebhook noBanEnv [activeRow]
          (SigCheck.ok (StripeEvent.customerSubscriptionDeleted "cus_1"))).effects ∧
    (noBanEnv.banOk = true →
      Effect.removedFromGroup "1"
        ∈ (stripeWebhook noBanEnv [activeRow]
            (SigCheck.ok (StripeEvent.customerSubscriptionDeleted "cus_1"))).effects) :=
  deleted_event_on_active_subscriber noBanEnv [activeRow] "cus_1" "1"
    rfl rfl rfl rfl

/-- C8: the video endpoint answers the media body exactly when the
resolved user is active and the DRM call succeeds, and an error-message
body in every other case (user missing, user not active, or the DRM call
failing); both shapes are JSON bodies sent with res.json, never a bare
HTTP error. -/
theorem video_endpoint_response_shape (readResult : Except Unit (List SheetRow))
    (userId : String) (otpResult : Except Unit (String × String)) :
    (∀ u otp pb, getUser readResult userId = some u →
        u.subscription_status = "active" → otpResult = Except.ok (otp, pb) →
        verifyAndGetVideo readResult userId otpResult = VideoResponse.media otp pb) ∧
    ((∀ u, getUser readResult userId = some u → u.subscription_status ≠ "active") →
        ∃ msg, verifyAndGetVideo readResult userId otpResult
          = VideoResponse.errorMsg msg) ∧
    (∀ e, otpResult = Except.error e →
        ∃ msg, verifyAndGetVideo readResult userId otpResult
          = VideoResponse.errorMsg msg) := by
  unfold verifyAndGetVideo
  cases hu : getUser readResult userId with
  | none =>
    exact ⟨fun u otp pb h => Option.noConfusion h, fun _ => ⟨_, rfl⟩,
      fun e he => ⟨_, rfl⟩⟩
  | some u =>
    cases hact : u.subscription_status == "active" with
    | false =>
      simp only [hact, Bool.false_eq_true, if_false]
      refine ⟨fun v otp pb hv hs ho => ?_, fun _ => ⟨_, rfl⟩, fun e he => ⟨_, rfl⟩⟩
      injection hv with hv
      rw [← hv] at hs
      simp [hs] at hact
    | true =>
      simp only [hact, if_true]
      refine ⟨fun v otp pb hv hs ho => ?_, fun hne => ?_, fun e he => ?_⟩
      · rw [ho]
      · exact absurd (eq_of_beq hact) (hne u rfl)
      · rw [he]
        exact ⟨_, rfl⟩

/-- C8 witness: the media shape on an active user with a successful DRM
call, and the error shape when the DRM call fails. -/
theorem video_endpoint_response_shape_witness :
    verifyAndGetVideo (Except.ok [activeRow]) "1" (Except.ok ("o", "p"))
      = VideoResponse.media "o" "p" ∧
    (∃ msg, verifyAndGetVideo (Except.ok [activeRow]) "1" (Except.error ())
      = VideoResponse.errorMsg msg) :=
  ⟨(video_endpoint_response_shape (Except.ok [activeRow]) "1"
      (Except.ok ("o", "p"))).1 (rowToUser activeRow) "o" "p" rfl rfl rfl,
    (video_endpoint_response_shape (Except.ok [activeRow]) "1"
      (Except.error ())).2.2 () rfl⟩

/-- C10: getUser answers none both when the sheet read fails and when no
row matches, and the two callers that branch on it — the video endpoint
and the /status command — give a store failure exactly the response they
give an unknown user, i.e. no active subscription. -/
theorem store_failure_treated_as_unknown_user (rows : List SheetRow)
    (userId : String) (otpResult : Except Unit (String × String))
    (h : rows.find? (fun r => r.telegram_id == userId) = none) :
    getUser (Except.error ()) userId = none ∧
    getUser (Except.ok rows) userId = none ∧
    verifyAndGetVideo (Except.error ()) userId otpResult
      = verifyAndGetVideo (Except.ok rows) userId otpResult ∧
    statusCommand (Except.error ()) userId
      = statusCommand (Except.ok rows) userId := by
  refine ⟨rfl, ?_, ?_, ?_⟩ <;>
    simp [getUser, verifyAndGetVideo, statusCommand, h]

/-- C10 witness: the statement at a sheet holding only telegram id 1,
queried for the unknown id 2. -/
theorem store_failure_treated_as_unknown_user_witness :
    getUser (Except.error ()) "2" = none ∧
    getUser (Except.ok [inactiveRow]) "2" = none ∧
    verifyAndGetVideo (Except.error ()) "2" (Except.ok ("o", "p"))
      = verifyAndGetVideo (Except.ok [inactiveRow]) "2" (Except.ok ("o", "p")) ∧
    statusCommand (Except.error ()) "2"
      = statusCommand (Except.ok [inactiveRow]) "2" :=
  store_failure_treated_as_unknown_user [inactiveRow] "2" (Except.ok ("o", "p"))
    (by decide)

end Bot
